import Mathlib

/-!
Verification of the forex multi-agent orchestration pipeline
(`src/agents/risk_agent.py`, `src/graph/*.py`, `src/system.py`).

Modelling conventions:
* Python floats are modelled as exact rationals (`ℚ`); all concrete scenarios
  checked below round to the same values the float program prints.
* Python dicts with string keys are modelled as insertion-ordered association
  lists (`ErrMap`); `dictSet` is `{**m, k: v}` (replace in place or append),
  `dictUpdate` is `m.update(m2)`.
* A state channel holding Python `None` is modelled as `Option.none`.  Every
  run started through `ForexAgentSystem.analyze` writes every channel in its
  initial input (system.py lines 111-124), so a channel is never absent; the
  distinction absent-vs-None therefore does not arise.
* Exceptions raised by external calls (Gemini, web search, ...) are modelled
  as `Except String` outcomes carrying the `str(e)` message.
-/

/-- Python dict with string keys and string values, insertion ordered. -/
abbrev ErrMap := List (String × String)

/-- Python `{**m, k: v}` : replace the value of `k` in place, else append. -/
def dictSet : ErrMap → String → String → ErrMap
  | [], k, v => [(k, v)]
  | (k', v') :: rest, k, v =>
      if k' = k then (k, v) :: rest else (k', v') :: dictSet rest k v

/-- Python `m.update(m2)` (merged copy): later entries overwrite earlier ones. -/
def dictUpdate (m m2 : ErrMap) : ErrMap :=
  m2.foldl (fun acc p => dictSet acc p.1 p.2) m

/-- Python `m.get(k)` : value of the first (unique, in a real dict) entry. -/
def dictGet : ErrMap → String → Option String
  | [], _ => none
  | (k', v') :: rest, k => if k' = k then some v' else dictGet rest k

/-- Keys of the association list, used to state the no-duplicate-keys
invariant every genuine Python dict satisfies. -/
def dictKeys (m : ErrMap) : List String := m.map (fun p => p.1)

/-- Rejection reasons returned by `RiskAgent._validate_trade`
(src/agents/risk_agent.py lines 267-291).  The Python code renders them as
formatted strings; the constructor arguments carry the interpolated numbers:
* `invalidStop`  : "Invalid stop loss: risk in pips must be positive"
* `tooHigh p`    : "Risk too high: {p:.1f} pips exceeds maximum of 100 pips"
* `poorRR r`     : "Poor risk/reward ratio: {r:.2f} is below minimum of 1.5"
* `tooSmall p`   : "Risk too small: {p:.1f} pips is below minimum of 10 pips"
-/
inductive RejectionReason where
  | invalidStop : RejectionReason
  | tooHigh : ℚ → RejectionReason
  | poorRR : ℚ → RejectionReason
  | tooSmall : ℚ → RejectionReason
deriving DecidableEq

/-- `RiskAgent._calculate_pips` (risk_agent.py lines 228-244): pip distance
between two prices with the fixed 10,000 multiplier (the JPY special case is
an explicit TODO in the source).  Leading underscore of the Python name
dropped. -/
def calculate_pips (entry exit_price : ℚ) (direction : String) (reward : Bool) : ℚ :=
  let pip_multiplier : ℚ := 10000
  if direction = "BUY" then
    if reward then |exit_price - entry| * pip_multiplier
    else |entry - exit_price| * pip_multiplier
  else
    if reward then |entry - exit_price| * pip_multiplier
    else |exit_price - entry| * pip_multiplier

/-- `RiskAgent._calculate_position_size` (risk_agent.py lines 246-265). -/
def calculate_position_size (account_balance max_risk_per_trade risk_in_pips : ℚ) : ℚ :=
  let dollar_risk := account_balance * max_risk_per_trade
  let pip_value_per_standard_lot : ℚ := 10
  if risk_in_pips ≤ 0 then 0
  else dollar_risk / (risk_in_pips * pip_value_per_standard_lot)

/-- `RiskAgent._validate_trade` (risk_agent.py lines 267-291), in the exact
source order: positivity, max 100 pips, risk/reward ratio, min 10 pips. -/
def validate_trade (risk_in_pips : ℚ) (risk_reward_ratio : Option ℚ) :
    Bool × Option RejectionReason :=
  if risk_in_pips ≤ 0 then (false, some RejectionReason.invalidStop)
  else if 100 < risk_in_pips then (false, some (RejectionReason.tooHigh risk_in_pips))
  else
    match risk_reward_ratio with
    | some r =>
        if r < 3/2 then (false, some (RejectionReason.poorRR r))
        else if risk_in_pips < 10 then (false, some (RejectionReason.tooSmall risk_in_pips))
        else (true, none)
    | none =>
        if risk_in_pips < 10 then (false, some (RejectionReason.tooSmall risk_in_pips))
        else (true, none)

/-- The four validation rules of `_validate_trade`, named so that orderings of
rule checks can be compared. -/
inductive RiskRule where
  | positivity : RiskRule
  | maxPips : RiskRule
  | rrRatio : RiskRule
  | minPips : RiskRule
deriving DecidableEq

/-- Whether a rule is satisfied by the given inputs. -/
def ruleHolds (p : ℚ) (rr : Option ℚ) : RiskRule → Bool
  | RiskRule.positivity => decide (0 < p)
  | RiskRule.maxPips => decide (p ≤ 100)
  | RiskRule.rrRatio =>
      match rr with
      | some r => decide ((3/2 : ℚ) ≤ r)
      | none => true
  | RiskRule.minPips => decide (10 ≤ p)

/-- The rejection reason a given rule produces when it fails. -/
def ruleReason (p : ℚ) (rr : Option ℚ) : RiskRule → Option RejectionReason
  | RiskRule.positivity => some RejectionReason.invalidStop
  | RiskRule.maxPips => some (RejectionReason.tooHigh p)
  | RiskRule.rrRatio => rr.map RejectionReason.poorRR
  | RiskRule.minPips => some (RejectionReason.tooSmall p)

/-- The order in which the source code checks the rules. -/
def sourceRuleOrder : List RiskRule :=
  [RiskRule.positivity, RiskRule.maxPips, RiskRule.rrRatio, RiskRule.minPips]

/-- The order claimed by the specification: positivity, max 100, min 10, then
risk/reward. -/
def claimedRuleOrder : List RiskRule :=
  [RiskRule.positivity, RiskRule.maxPips, RiskRule.minPips, RiskRule.rrRatio]

/-- Rejection reason predicted by checking the rules in the given order and
reporting the first failure. -/
def firstFailingReason (p : ℚ) (rr : Option ℚ) (order : List RiskRule) :
    Option RejectionReason :=
  (order.find? (fun ru => ! ruleHolds p rr ru)).bind (ruleReason p rr)

/-- Python banker-rounding `round(x)` of an exact rational: round half to even. -/
def pyRoundInt (x : ℚ) : ℤ :=
  let n := ⌊x⌋
  let f := x - n
  if f < 1/2 then n
  else if 1/2 < f then n + 1
  else if n % 2 = 0 then n else n + 1

/-- Python `round(x, ndigits)` on the exact-rational model. -/
def pyRoundTo (x : ℚ) (ndigits : ℕ) : ℚ :=
  (pyRoundInt (x * 10 ^ ndigits) : ℚ) / 10 ^ ndigits

/-- Reward block of the risk data dict, present when a truthy take profit is
given (risk_agent.py lines 105-117). -/
structure RewardData where
  take_profit : ℚ
  reward_in_pips : ℚ
  risk_reward_ratio : ℚ
  potential_profit : ℚ
deriving DecidableEq

/-- Data dict returned by `RiskAgent._calculate_risk_params` (risk_agent.py
lines 122-143).  The `analysis_timestamp` (wall clock), `summary` (derived
presentation string) and `data_source` (constant "rule_based") entries are
not modelled. -/
structure RiskData where
  pair : Option String
  direction : String
  entry_price : ℚ
  stop_loss : ℚ
  risk_in_pips : ℚ
  position_size : ℚ
  dollar_risk : ℚ
  risk_percentage : ℚ
  leverage : ℚ
  account_balance : ℚ
  reward : Option RewardData
  trade_approved : Bool
  rejection_reason : Option RejectionReason
deriving DecidableEq

/-- `RiskAgent._calculate_risk_params` (risk_agent.py lines 85-143).
Python `if take_profit:` treats both `None` and `0` as absent. -/
def calculate_risk_params (account_balance max_risk_per_trade : ℚ)
    (pair : Option String) (entry_price stop_loss : ℚ) (direction : String)
    (take_profit : Option ℚ) (leverage : ℚ) : RiskData :=
  let risk_in_pips := calculate_pips entry_price stop_loss direction false
  let position_size := calculate_position_size account_balance max_risk_per_trade risk_in_pips
  let dollar_risk := account_balance * max_risk_per_trade
  let tp : Option ℚ :=
    match take_profit with
    | some t => if t = 0 then none else some t
    | none => none
  let rrOpt : Option ℚ := tp.map (fun t =>
    let reward_in_pips := calculate_pips entry_price t direction true
    if 0 < risk_in_pips then reward_in_pips / risk_in_pips else 0)
  let reward : Option RewardData := tp.map (fun t =>
    let reward_in_pips := calculate_pips entry_price t direction true
    let risk_reward_ratio := if 0 < risk_in_pips then reward_in_pips / risk_in_pips else 0
    let potential_profit :=
      if 0 < risk_in_pips then (reward_in_pips / risk_in_pips) * dollar_risk else 0
    { take_profit := t
      reward_in_pips := pyRoundTo reward_in_pips 1
      risk_reward_ratio := pyRoundTo risk_reward_ratio 2
      potential_profit := pyRoundTo potential_profit 2 })
  let v := validate_trade risk_in_pips rrOpt
  { pair := pair
    direction := direction
    entry_price := entry_price
    stop_loss := stop_loss
    risk_in_pips := pyRoundTo risk_in_pips 1
    position_size := pyRoundTo position_size 2
    dollar_risk := pyRoundTo dollar_risk 2
    risk_percentage := pyRoundTo (max_risk_per_trade * 100) 2
    leverage := leverage
    account_balance := account_balance
    reward := reward
    trade_approved := v.1
    rejection_reason := v.2 }

/-- Payload of an agent result, covering the dict shapes the orchestrator
actually constructs or inspects:
* `empty`        : the literal `{}` payload of the agent-level failure envelopes;
* `risk d`       : the rule-based risk data dict;
* `advisory b r` : the `{"trade_approved": b, "rejection_reason": r}` payload
  synthesized by `risk_node` failure branches (nodes.py lines 183, 199, 233);
* `tech d`       : a technical-analysis payload, restricted to the keys
  `risk_node` reads (current_price, stop_loss, take_profit, signals.overall);
* `payload tag`  : any other successful provider payload, kept opaque. -/
inductive AgentData where
  | empty : AgentData
  | risk : RiskData → AgentData
  | advisory : Bool → String → AgentData
  | tech : Option ℚ → Option ℚ → Option ℚ → Option String → AgentData
  | payload : String → AgentData
deriving DecidableEq

/-- Uniform result envelope (spec section 3).  A field holding `none` models
an absent key of the Python dict (for `html`, `some none` is an explicit
`"html": None`). -/
structure AgentResult where
  success : Bool
  agent : Option String
  data : Option AgentData
  error : Option String
  html : Option (Option String)
deriving DecidableEq

/-- Whether the data field is empty or absent in the sense of the spec
invariant on `AgentResult`. -/
def dataMissing : Option AgentData → Bool
  | none => true
  | some AgentData.empty => true
  | some _ => false

/-- Reasoning block of a decision.  LLM-produced decisions are arbitrary JSON;
they are abstracted to the fields the fallback decision of `synthesis_node`
fixes (nodes.py lines 313-321). -/
structure Reasoning where
  summary : String
  error : Bool
deriving DecidableEq

/-- Final decision object. -/
structure Decision where
  action : String
  confidence : ℚ
  reasoning : Reasoning
deriving DecidableEq

/-- Structured query context, restricted to the fields the fallback path of
`query_parser_node` constructs (query_parser.py lines 88-92); an
LLM-produced context is abstracted to the same skeleton. -/
structure QueryContext where
  pair : Option String
  asset_type : Option String
  parse_error : Option String
deriving DecidableEq

/-- The `ForexAgentState` TypedDict (src/graph/state.py).  The `messages`
chat channel is never read or written by the modelled nodes and is omitted.
`report_result` is written by `report_node` although state.py does not
declare it; it is carried here as an ordinary slot. -/
structure WorkflowState where
  user_query : String
  query_context : Option QueryContext
  pair : Option String
  news_result : Option AgentResult
  technical_result : Option AgentResult
  fundamental_result : Option AgentResult
  risk_result : Option AgentResult
  decision : Option Decision
  report_result : Option AgentResult
  step_count : ℕ
  should_continue : Bool
  errors : Option ErrMap
deriving DecidableEq

/-- A node return value: for each state channel, `none` means the key is not
in the returned update dict, `some v` means the update writes `v` (which can
itself be Python `None`).  LangGraph channels here are plain last-value
channels (state.py declares no reducer on them), so a written value simply
overwrites the previous one. -/
structure NodeUpdate where
  query_context : Option (Option QueryContext)
  pair : Option (Option String)
  news_result : Option (Option AgentResult)
  technical_result : Option (Option AgentResult)
  fundamental_result : Option (Option AgentResult)
  risk_result : Option (Option AgentResult)
  decision : Option (Option Decision)
  report_result : Option (Option AgentResult)
  step_count : Option ℕ
  errors : Option (Option ErrMap)
deriving DecidableEq

/-- The update that writes nothing. -/
def NodeUpdate.empty : NodeUpdate :=
  ⟨none, none, none, none, none, none, none, none, none, none⟩

/-- Apply a node update to the state: every key present in the returned dict
overwrites its channel (LangGraph last-value semantics). -/
def applyUpdate (s : WorkflowState) (u : NodeUpdate) : WorkflowState :=
  { s with
    query_context := u.query_context.getD s.query_context
    pair := u.pair.getD s.pair
    news_result := u.news_result.getD s.news_result
    technical_result := u.technical_result.getD s.technical_result
    fundamental_result := u.fundamental_result.getD s.fundamental_result
    risk_result := u.risk_result.getD s.risk_result
    decision := u.decision.getD s.decision
    report_result := u.report_result.getD s.report_result
    step_count := u.step_count.getD s.step_count
    errors := u.errors.getD s.errors }

/-- Python exceptions that escape a node, aborting the graph run. -/
inductive PyErr where
  | typeError : PyErr
  | attributeError : PyErr
deriving DecidableEq

/-- Static alias table of `_fallback_parse` (query_parser.py lines 223-234),
in source order. -/
def assetMappings : List (String × String) :=
  [("gold", "XAU/USD"), ("silver", "XAG/USD"), ("oil", "CL/USD"),
   ("bitcoin", "BTC/USD"), ("btc", "BTC/USD"), ("ethereum", "ETH/USD"),
   ("eth", "ETH/USD"), ("euro", "EUR/USD"), ("pound", "GBP/USD"),
   ("yen", "USD/JPY")]

/-- ASCII lower-casing, modelling `str.lower()` on the ASCII inputs at hand. -/
def toLowerList (l : List Char) : List Char := l.map Char.toLower

/-- ASCII upper-casing, modelling `str.upper()`. -/
def toUpperList (l : List Char) : List Char := l.map Char.toUpper

/-- Whether the first list is an initial segment of the second. -/
def listStartsWith : List Char → List Char → Bool
  | [], _ => true
  | _ :: _, [] => false
  | a :: as, b :: bs => (a = b) && listStartsWith as bs

/-- Python `needle in haystack` on strings. -/
def containsSub (needle : List Char) : List Char → Bool
  | [] => needle.isEmpty
  | c :: rest => listStartsWith needle (c :: rest) || containsSub needle rest

/-- Character class `[A-Z]` of the pair regex. -/
def isUpperAlpha (c : Char) : Bool := decide ('A' ≤ c) && decide (c ≤ 'Z')

/-- Character class `[/\s]` of the pair regex (ASCII whitespace). -/
def isSepChar (c : Char) : Bool :=
  c = '/' || c = ' ' || c = '\t' || c = '\n' || c = '\r' ||
  c = Char.ofNat 11 || c = Char.ofNat 12

/-- One attempt of the regex `([A-Z]{3})[/\s]?([A-Z]{3})` anchored at the head
of the list; the optional separator is greedy, as in `re`. -/
def matchPairAt (l : List Char) : Option (String × String) :=
  match l with
  | a :: b :: c :: rest =>
      if isUpperAlpha a && isUpperAlpha b && isUpperAlpha c then
        let sepTry : Option (String × String) :=
          match rest with
          | d :: e :: f :: g :: _ =>
              if isSepChar d && isUpperAlpha e && isUpperAlpha f && isUpperAlpha g then
                some (⟨[a, b, c]⟩, ⟨[e, f, g]⟩)
              else none
          | _ => none
        match sepTry with
        | some r => some r
        | none =>
            match rest with
            | d :: e :: f :: _ =>
                if isUpperAlpha d && isUpperAlpha e && isUpperAlpha f then
                  some (⟨[a, b, c]⟩, ⟨[d, e, f]⟩)
                else none
            | _ => none
      else none
  | _ => none

/-- `re.search` of the pair pattern: leftmost match wins. -/
def searchPair : List Char → Option (String × String)
  | [] => none
  | c :: rest =>
      match matchPairAt (c :: rest) with
      | some r => some r
      | none => searchPair rest

/-- `_fallback_parse` (query_parser.py lines 215-254): keyword table first,
then the pair regex on the upper-cased query, then the fixed default. -/
def fallback_parse (user_query : String) : String :=
  let query_lower := toLowerList user_query.toList
  match assetMappings.find? (fun p => containsSub p.1.toList query_lower) with
  | some p => p.2
  | none =>
      match searchPair (toUpperList user_query.toList) with
      | some (base, quote) => base ++ "/" ++ quote
      | none => "EUR/USD"

/-- `query_parser_node` (query_parser.py lines 11-96).  `outcome` is the
result of the whole Gemini call-and-parse: `Except.ok qc` when it returns a
parsed context, `Except.error msg` when anything in the try block raises with
message `str(e) = msg`.  In the except branch the source computes
`{**state.get("errors", {}), "query_parser": str(e)}`; the key `errors` is
always present (see module comment), so when its value is `None` the
unpacking `{**None}` raises `TypeError` out of the node. -/
def query_parser_node (s : WorkflowState) (outcome : Except String QueryContext) :
    Except PyErr NodeUpdate :=
  match outcome with
  | Except.ok qc =>
      Except.ok { NodeUpdate.empty with
        query_context := some (some qc)
        pair := some (some (qc.pair.getD "EUR/USD"))
        step_count := some (s.step_count + 1) }
  | Except.error msg =>
      let fp := fallback_parse s.user_query
      match s.errors with
      | none => Except.error PyErr.typeError
      | some m =>
          Except.ok { NodeUpdate.empty with
            query_context := some (some
              { pair := some fp, asset_type := some "unknown", parse_error := some msg })
            pair := some (some fp)
            step_count := some (s.step_count + 1)
            errors := some (some (dictSet m "query_parser" msg)) }

/-- `news_node` (nodes.py lines 17-61).  `outcome` is the result of the try
block: the returned provider envelope, or the message of a raised
exception. -/
def news_node (s : WorkflowState) (outcome : Except String AgentResult) : NodeUpdate :=
  match outcome with
  | Except.ok r =>
      { NodeUpdate.empty with
        news_result := some (some r)
        step_count := some (s.step_count + 1) }
  | Except.error msg =>
      { NodeUpdate.empty with
        news_result := some (some
          { success := false, agent := none, data := none, error := some msg, html := none })
        step_count := some (s.step_count + 1)
        errors := some (some (dictSet (s.errors.getD []) "news" msg)) }

/-- `technical_node` (nodes.py lines 64-108). -/
def technical_node (s : WorkflowState) (outcome : Except String AgentResult) : NodeUpdate :=
  match outcome with
  | Except.ok r =>
      { NodeUpdate.empty with
        technical_result := some (some r)
        step_count := some (s.step_count + 1) }
  | Except.error msg =>
      { NodeUpdate.empty with
        technical_result := some (some
          { success := false, agent := none, data := none, error := some msg, html := none })
        step_count := some (s.step_count + 1)
        errors := some (some (dictSet (s.errors.getD []) "technical" msg)) }

/-- `fundamental_node` (nodes.py lines 111-154). -/
def fundamental_node (s : WorkflowState) (outcome : Except String AgentResult) : NodeUpdate :=
  match outcome with
  | Except.ok r =>
      { NodeUpdate.empty with
        fundamental_result := some (some r)
        step_count := some (s.step_count + 1) }
  | Except.error msg =>
      { NodeUpdate.empty with
        fundamental_result := some (some
          { success := false, agent := none, data := none, error := some msg, html := none })
        step_count := some (s.step_count + 1)
        errors := some (some (dictSet (s.errors.getD []) "fundamental" msg)) }

/-- Error dict a branch update contributes to the merge: the source only
applies `errors.update(...)` when the branch update carries a truthy errors
dict, which is the same as updating with the empty dict otherwise. -/
def branchErrors (u : NodeUpdate) : ErrMap := (u.errors.getD none).getD []

/-- `parallel_analysis_node` (parallel_nodes.py lines 15-108), normal path:
the three branch coroutines each receive the same state snapshot and their
updates are merged; `step_count` becomes the max of the branch counts and the
`errors` channel is set to the union of the branch error dicts, or `None`
when that union is empty.  The `isinstance(..., Exception)` arms only fire
for exceptions escaping a branch function (the branch functions modelled
here catch everything inside their try blocks), and the sequential fallback
only fires when `asyncio.gather` itself fails; neither is modelled. -/
def parallel_analysis_node (s : WorkflowState)
    (newsOutcome technicalOutcome fundamentalOutcome : Except String AgentResult) :
    NodeUpdate :=
  let nu := news_node s newsOutcome
  let tu := technical_node s technicalOutcome
  let fu := fundamental_node s fundamentalOutcome
  let max_steps := max (nu.step_count.getD 0) (max (tu.step_count.getD 0) (fu.step_count.getD 0))
  let errs := dictUpdate (dictUpdate (branchErrors nu) (branchErrors tu)) (branchErrors fu)
  { NodeUpdate.empty with
    news_result := some (nu.news_result.getD none)
    technical_result := some (tu.technical_result.getD none)
    fundamental_result := some (fu.fundamental_result.getD none)
    step_count := some max_steps
    errors := some (if errs.isEmpty then none else some errs) }

/-- Python truthiness filter for optional numbers: `None` and `0` are falsy. -/
def truthyNum : Option ℚ → Option ℚ
  | none => none
  | some q => if q = 0 then none else some q

/-- View of an agent data payload through the keys `risk_node` reads
(`current_price`, `stop_loss`, `take_profit`, `signals.overall`); payloads of
any other shape simply miss those keys. -/
def techView : AgentData → Option ℚ × Option ℚ × Option ℚ × Option String
  | AgentData.tech cp sl tp sig => (cp, sl, tp, sig)
  | _ => (none, none, none, none)

/-- `RiskAgent.analyze` as invoked by `risk_node` (risk_agent.py lines 40-74):
no `market_context` is passed, so `self.use_llm and market_context` is falsy
and the call reduces to the rule-based `_calculate_risk_params`, which is
total, so the except branch of `analyze` is not reachable on this path. -/
def riskAgent_analyze (account_balance max_risk_per_trade : ℚ) (pair : Option String)
    (entry_price stop_loss : ℚ) (direction : String) (take_profit : Option ℚ)
    (leverage : ℚ) : AgentResult :=
  { success := true
    agent := some "RiskAgent"
    data := some (AgentData.risk (calculate_risk_params account_balance max_risk_per_trade
      pair entry_price stop_loss direction take_profit leverage))
    error := none
    html := none }

/-- The failure envelope of `RiskAgent.analyze` (risk_agent.py lines 76-83):
`{"success": False, "agent": "RiskAgent", "error": str(e), "data": {}}`. -/
def riskAgent_error_envelope (msg : String) : AgentResult :=
  { success := false, agent := some "RiskAgent", data := some AgentData.empty
    error := some msg, html := none }

/-- The generic agent failure envelope shared by the news, technical and
fundamental agents (news_agent.py lines 215-220, technical_agent.py lines
96-101, fundamental_agent.py lines 76-81):
`{"success": False, "agent": name, "error": str(e), "data": {}}`. -/
def agent_error_envelope (name msg : String) : AgentResult :=
  { success := false, agent := some name, data := some AgentData.empty
    error := some msg, html := none }

/-- Advisory failure update of `risk_node` (nodes.py lines 179-186 and
195-201): a `success=False` result whose data dict still carries
`trade_approved=False` and a rejection reason; no errors entry is written. -/
def riskAdvisoryUpdate (s : WorkflowState) (err reason : String) : NodeUpdate :=
  { NodeUpdate.empty with
    risk_result := some (some
      { success := false, agent := none
        data := some (AgentData.advisory false reason)
        error := some err, html := none })
    step_count := some (s.step_count + 1) }

/-- Except branch of `risk_node` (nodes.py lines 227-237). -/
def riskExceptUpdate (s : WorkflowState) (msg : String) : NodeUpdate :=
  { NodeUpdate.empty with
    risk_result := some (some
      { success := false, agent := none
        data := some (AgentData.advisory false ("Risk calculation error: " ++ msg))
        error := some msg, html := none })
    step_count := some (s.step_count + 1)
    errors := some (some (dictSet (s.errors.getD []) "risk" msg)) }

/-- Message of the AttributeError raised by `None.get(...)`; it is the
`str(e)` recorded when `state["technical_result"]` is Python `None` and the
source calls `.get` on it inside the try block. -/
def noneGetMsg : String := "NoneType object has no attribute get"

/-- `risk_node` (nodes.py lines 157-237).  Reading the state and calling the
(rule-based, total) risk agent cannot fail except through the two guarded
data checks, whose advisory branches are modelled explicitly; a `None`
technical slot sends the `.get` AttributeError through the except branch. -/
def risk_node (account_balance max_risk_per_trade : ℚ) (s : WorkflowState) : NodeUpdate :=
  match s.technical_result with
  | none => riskExceptUpdate s noneGetMsg
  | some ta =>
      if ta.success then
        match ta.data with
        | none => riskExceptUpdate s noneGetMsg
        | some d =>
            let tv := techView d
            match truthyNum tv.1, truthyNum tv.2.1 with
            | some entry, some stop =>
                let direction := if tv.2.2.2 = some "BUY" then "BUY" else "SELL"
                { NodeUpdate.empty with
                  risk_result := some (some (riskAgent_analyze account_balance
                    max_risk_per_trade s.pair entry stop direction tv.2.2.1 1))
                  step_count := some (s.step_count + 1) }
            | _, _ => riskAdvisoryUpdate s "Missing required price data" "Incomplete technical data"
      else
        riskAdvisoryUpdate s "Technical analysis required for risk calculation"
          "Technical analysis unavailable"

/-- `synthesis_node` (nodes.py lines 240-321).  `outcome` is the result of
the whole try block (client setup, Gemini call, `json.loads`): a parsed
decision, or the message of whatever exception was raised.  The except
branch emits the fixed safe default decision and records the error under
`errors["synthesis"]`. -/
def synthesis_node (s : WorkflowState) (outcome : Except String Decision) : NodeUpdate :=
  match outcome with
  | Except.ok d =>
      { NodeUpdate.empty with
        decision := some (some d)
        step_count := some (s.step_count + 1) }
  | Except.error msg =>
      { NodeUpdate.empty with
        decision := some (some
          { action := "WAIT", confidence := 0
            reasoning := { summary := "Synthesis failed: " ++ msg, error := true } })
        step_count := some (s.step_count + 1)
        errors := some (some (dictSet (s.errors.getD []) "synthesis" msg)) }

/-- `report_node` (nodes.py lines 392-469). -/
def report_node (s : WorkflowState) (outcome : Except String AgentResult) : NodeUpdate :=
  match outcome with
  | Except.ok r =>
      { NodeUpdate.empty with
        report_result := some (some r)
        step_count := some (s.step_count + 1) }
  | Except.error msg =>
      { NodeUpdate.empty with
        report_result := some (some
          { success := false, agent := some "ReportAgent", data := none
            error := some msg, html := some none })
        step_count := some (s.step_count + 1)
        errors := some (some (dictSet (s.errors.getD []) "report" msg)) }

/-- Truthiness of `risk_data.get("trade_approved", False)` for the payload
shapes a risk result can carry. -/
def dataTradeApproved : Option AgentData → Bool
  | some (AgentData.risk d) => d.trade_approved
  | some (AgentData.advisory b _) => b
  | _ => false

/-- `should_continue_after_risk` (nodes.py lines 473-493): every branch
returns "continue".  When the risk slot holds Python `None` the source would
raise AttributeError on `.get`; in the graph this router only ever runs on
states just written by `risk_node`, which always sets a result dict. -/
def should_continue_after_risk (s : WorkflowState) : Except PyErr String :=
  match s.risk_result with
  | none => Except.error PyErr.attributeError
  | some r =>
      if r.success then
        if dataTradeApproved r.data then Except.ok "continue"
        else Except.ok "continue"
      else Except.ok "continue"

/-- `route_after_synthesis` (nodes.py lines 496-506): constant "report". -/
def route_after_synthesis (_s : WorkflowState) : String := "report"

/-- `route_after_report` (nodes.py lines 509-519): constant "end". -/
def route_after_report (_s : WorkflowState) : String := "end"

/-- Outcomes of all external calls made during one workflow invocation,
together with the account parameters `risk_node` reads from the
environment. -/
structure WorkflowEnv where
  queryOutcome : Except String QueryContext
  newsOutcome : Except String AgentResult
  technicalOutcome : Except String AgentResult
  fundamentalOutcome : Except String AgentResult
  synthesisOutcome : Except String Decision
  reportOutcome : Except String AgentResult
  account_balance : ℚ
  max_risk_per_trade : ℚ

/-- One full run of the compiled graph of `build_forex_workflow`
(workflow.py lines 17-90): query_parser → parallel_analysis → risk →
conditional edge → synthesis → report → end.  A Python exception escaping a
node aborts the run with no final state. -/
def run_workflow (e : WorkflowEnv) (s0 : WorkflowState) : Except PyErr WorkflowState :=
  match query_parser_node s0 e.queryOutcome with
  | Except.error err => Except.error err
  | Except.ok u1 =>
      let s1 := applyUpdate s0 u1
      let s2 := applyUpdate s1
        (parallel_analysis_node s1 e.newsOutcome e.technicalOutcome e.fundamentalOutcome)
      let s3 := applyUpdate s2 (risk_node e.account_balance e.max_risk_per_trade s2)
      match should_continue_after_risk s3 with
      | Except.error err => Except.error err
      | Except.ok route =>
          if route = "continue" then
            let s4 := applyUpdate s3 (synthesis_node s3 e.synthesisOutcome)
            let s5 := applyUpdate s4 (report_node s4 e.reportOutcome)
            Except.ok s5
          else Except.ok s3

/-- Initial state built by `ForexAgentSystem.analyze` (system.py lines
111-124): every channel is written, the result slots and `errors` with
Python `None`. -/
def initial_state (query : String) : WorkflowState :=
  { user_query := query
    query_context := none
    pair := none
    news_result := none
    technical_result := none
    fundamental_result := none
    risk_result := none
    decision := none
    report_result := none
    step_count := 0
    should_continue := true
    errors := none }

/-- Looking up the key just written by `dictSet` yields the written value. -/
theorem dictGet_dictSet_self (m : ErrMap) (k v : String) :
    dictGet (dictSet m k v) k = some v := by
  induction m with
  | nil => simp [dictSet, dictGet]
  | cons p rest ih =>
      obtain ⟨k2, v2⟩ := p
      by_cases h : k2 = k
      · simp [dictSet, h, dictGet]
      · simp [dictSet, h, dictGet, ih]

/-- Looking up a different key after `dictSet` is unchanged. -/
theorem dictGet_dictSet_ne (m : ErrMap) (k v k2 : String) (h : k2 ≠ k) :
    dictGet (dictSet m k v) k2 = dictGet m k2 := by
  induction m with
  | nil => simp [dictSet, dictGet, Ne.symm h]
  | cons p rest ih =>
      obtain ⟨k3, v3⟩ := p
      by_cases hk : k3 = k
      · subst hk
        simp [dictSet, dictGet, Ne.symm h]
      · by_cases hk2 : k3 = k2
        · subst hk2
          simp [dictSet, dictGet, hk]
        · simp [dictSet, dictGet, hk, hk2, ih]

/-- A key not among the keys of the dict looks up to nothing. -/
theorem dictGet_eq_none (m : ErrMap) (k : String) (h : k ∉ dictKeys m) :
    dictGet m k = none := by
  induction m with
  | nil => rfl
  | cons p rest ih =>
      obtain ⟨k2, v2⟩ := p
      simp only [dictKeys, List.map_cons, List.mem_cons, not_or] at h
      simp [dictGet, Ne.symm h.1, ih (by simpa [dictKeys] using h.2)]

/-- Lookup through `dictUpdate`: for a duplicate-free second dict (every real
Python dict), entries of the second dict win, the rest fall through. -/
theorem dictGet_dictUpdate (m m2 : ErrMap) (k : String) (h : (dictKeys m2).Nodup) :
    dictGet (dictUpdate m m2) k = (dictGet m2 k <|> dictGet m k) := by
  induction m2 generalizing m with
  | nil => simp [dictUpdate, dictGet]
  | cons p rest ih =>
      obtain ⟨a, b⟩ := p
      simp only [dictKeys, List.map_cons, List.nodup_cons] at h
      have hstep : dictUpdate m ((a, b) :: rest) = dictUpdate (dictSet m a b) rest := rfl
      rw [hstep, ih (dictSet m a b) (by simpa [dictKeys] using h.2)]
      by_cases hk : a = k
      · subst hk
        have hnone : dictGet rest a = none :=
          dictGet_eq_none _ _ (by simpa [dictKeys] using h.1)
        simp [dictGet, hnone, dictGet_dictSet_self]
      · simp [dictGet, hk, dictGet_dictSet_ne _ _ _ _ (Ne.symm hk)]

/-- Keys after `dictSet`: unchanged when the key is present, appended else. -/
theorem dictKeys_dictSet (m : ErrMap) (k v : String) :
    dictKeys (dictSet m k v) =
      if k ∈ dictKeys m then dictKeys m else dictKeys m ++ [k] := by
  induction m with
  | nil => simp [dictSet, dictKeys]
  | cons p rest ih =>
      obtain ⟨k2, v2⟩ := p
      by_cases h : k2 = k
      · subst h
        simp [dictSet, dictKeys]
      · have hset : dictSet ((k2, v2) :: rest) k v = (k2, v2) :: dictSet rest k v := by
          simp [dictSet, h]
        have hkk2 : ¬ k = k2 := fun hh => h hh.symm
        simp only [hset, dictKeys, List.map_cons, List.mem_cons, hkk2, false_or] at ih ⊢
        by_cases hmem : k ∈ List.map (fun p => p.1) rest
        · simp only [hmem, if_true] at ih ⊢
          simp [ih]
        · simp only [hmem, if_false] at ih ⊢
          simp [ih]

/-- `dictSet` preserves duplicate-freeness of the keys. -/
theorem nodup_dictKeys_dictSet (m : ErrMap) (k v : String)
    (h : (dictKeys m).Nodup) : (dictKeys (dictSet m k v)).Nodup := by
  rw [dictKeys_dictSet]
  by_cases hmem : k ∈ dictKeys m
  · simpa [hmem]
  · simp only [hmem, if_false]
    rw [List.nodup_append]
    refine ⟨h, List.nodup_singleton k, ?_⟩
    intro a ha hb
    rw [List.mem_singleton] at hb
    subst hb
    exact hmem ha

/-- Concrete successful news payload used in concrete scenarios. -/
def sampleNewsOk : AgentResult :=
  { success := true, agent := some "NewsAgent"
    data := some (AgentData.payload "news sentiment"), error := none, html := none }

/-- Concrete successful technical payload used in concrete scenarios. -/
def sampleTechOk : AgentResult :=
  { success := true, agent := some "TechnicalAgent"
    data := some (AgentData.tech (some (1085/1000)) (some (1080/1000))
      (some (1095/1000)) (some "BUY"))
    error := none, html := none }

/-- Concrete successful fundamental payload used in concrete scenarios. -/
def sampleFundOk : AgentResult :=
  { success := true, agent := some "FundamentalAgent"
    data := some (AgentData.payload "fundamental outlook"), error := none, html := none }

/-- Concrete state as it looks after the query-parser stage recorded a
parse failure: the pair is resolved and `errors` carries a
`query_parser` entry. -/
def stateAfterQP : WorkflowState :=
  { user_query := "Analyze gold trading"
    query_context := some
      { pair := some "XAU/USD", asset_type := some "unknown", parse_error := some "parse boom" }
    pair := some "XAU/USD"
    news_result := none
    technical_result := none
    fundamental_result := none
    risk_result := none
    decision := none
    report_result := none
    step_count := 1
    should_continue := true
    errors := some [("query_parser", "parse boom")] }

/-- Environment in which every external reasoning call fails. -/
def envAllFail : WorkflowEnv :=
  { queryOutcome := Except.error "503 service unavailable"
    newsOutcome := Except.error "news provider down"
    technicalOutcome := Except.error "technical provider down"
    fundamentalOutcome := Except.error "fundamental provider down"
    synthesisOutcome := Except.error "synthesis timeout"
    reportOutcome := Except.error "report provider down"
    account_balance := 10000
    max_risk_per_trade := 2/100 }

/-- C1: the claim states that every workflow run terminates with a non-null
decision, with no execution path ending without one.  The code violates this:
from the standard initial state of `ForexAgentSystem.analyze` (which sets the
`errors` channel to Python `None`), a failing query-parser reasoning call
sends execution into the fallback handler, whose
`{**state.get("errors", {}), ...}` unpacks `None` and raises `TypeError`, so
the whole run aborts before any decision is produced.  This theorem evaluates
the modelled workflow at that failing input. -/
theorem C1_run_aborts_without_decision :
    run_workflow envAllFail (initial_state "Analyze gold trading") =
      Except.error PyErr.typeError := rfl

/-- C2: whenever the synthesis reasoning call fails (or its output fails to
parse) with message `msg`, `synthesis_node` swallows the exception and
returns exactly the safe default decision
`{action: "WAIT", confidence: 0.0, reasoning: {summary: "Synthesis failed: <msg>", error: true}}`,
incrementing the step count and recording `msg` under `errors["synthesis"]`
on top of the previously accumulated errors. -/
theorem C2_synthesis_safe_default (s : WorkflowState) (msg : String) :
    synthesis_node s (Except.error msg) =
      { NodeUpdate.empty with
        decision := some (some
          { action := "WAIT", confidence := 0
            reasoning := { summary := "Synthesis failed: " ++ msg, error := true } })
        step_count := some (s.step_count + 1)
        errors := some (some (dictSet (s.errors.getD []) "synthesis" msg)) } ∧
    dictGet (((synthesis_node s (Except.error msg)).errors.getD none).getD []) "synthesis" =
      some msg := by
  refine ⟨rfl, ?_⟩
  show dictGet (dictSet (s.errors.getD []) "synthesis" msg) "synthesis" = some msg
  exact dictGet_dictSet_self _ _ _

/-- C9: the claim states the query-normalizer fallback never raises and
always records the error under `errors["query_parser"]`.  The code violates
the never-raises part: from the standard initial state (the `errors` channel
holds Python `None`) the fallback handler itself raises `TypeError` when it
unpacks `{**state.get("errors", {})}` (query_parser.py line 95) - every
sibling node guards with `or {}` instead.  The alias-table part of the claim
does hold: "Analyze gold trading" resolves to "XAU/USD", and from any state
whose errors channel holds a dict the fallback returns the structured
context with the error recorded. -/
theorem C9_fallback_raises_on_initial_state :
    query_parser_node (initial_state "Analyze gold trading")
        (Except.error "gemini unavailable") = Except.error PyErr.typeError ∧
    fallback_parse "Analyze gold trading" = "XAU/USD" ∧
    query_parser_node { initial_state "Analyze gold trading" with errors := some [] }
        (Except.error "gemini unavailable") =
      Except.ok { NodeUpdate.empty with
        query_context := some (some
          { pair := some "XAU/USD", asset_type := some "unknown"
            parse_error := some "gemini unavailable" })
        pair := some (some "XAU/USD")
        step_count := some 1
        errors := some (some [("query_parser", "gemini unavailable")]) } :=
  ⟨rfl, rfl, rfl⟩

/-- C3 counterexample: at `risk_in_pips = 5` with a defined risk/reward ratio
of `1.0`, the claimed checking order (positivity, max 100, min 10, then
risk/reward) predicts the min-10-pips rejection reason, but the source checks
the risk/reward rule before the min-10 rule and rejects with the poor
risk/reward reason instead. -/
theorem C3_order_counterexample :
    firstFailingReason 5 (some 1) claimedRuleOrder = some (RejectionReason.tooSmall 5) ∧
    validate_trade 5 (some 1) = (false, some (RejectionReason.poorRR 1)) ∧
    RejectionReason.tooSmall 5 ≠ RejectionReason.poorRR 1 := by
  have e1 : decide ((0 : ℚ) < 5) = true := decide_eq_true (by norm_num)
  have e2 : decide ((5 : ℚ) ≤ 100) = true := decide_eq_true (by norm_num)
  have e3 : decide ((10 : ℚ) ≤ 5) = false := decide_eq_false (by norm_num)
  have e4 : decide ((3/2 : ℚ) ≤ 1) = false := decide_eq_false (by norm_num)
  refine ⟨?_, ?_, ?_⟩
  · simp [firstFailingReason, claimedRuleOrder, List.find?, ruleHolds, ruleReason,
      e1, e2, e3, e4]
  · unfold validate_trade
    rw [if_neg (by norm_num : ¬ (5 : ℚ) ≤ 0), if_neg (by norm_num : ¬ (100 : ℚ) < 5)]
    show (if (1 : ℚ) < 3/2 then (false, some (RejectionReason.poorRR 1))
      else if (5 : ℚ) < 10 then (false, some (RejectionReason.tooSmall 5))
      else (true, none)) = (false, some (RejectionReason.poorRR 1))
    rw [if_pos (by norm_num : (1 : ℚ) < 3/2)]
  · intro hh
    cases hh

/-- C3 (amended): the trade is approved iff risk is positive, at most 100
pips (inclusive), at least 10 pips (inclusive) and, when defined, the
risk/reward ratio is at least 1.5; when not approved, the rejection reason is
that of the first failing rule in the order actually checked by the source:
positivity, max 100, risk/reward, then min 10. -/
theorem C3_validation_amended (p : ℚ) (rr : Option ℚ) :
    ((validate_trade p rr).1 = true ↔
      (0 < p ∧ p ≤ 100 ∧ 10 ≤ p ∧ ∀ r, rr = some r → (3/2 : ℚ) ≤ r)) ∧
    (validate_trade p rr).2 = firstFailingReason p rr sourceRuleOrder := by
  constructor
  · unfold validate_trade
    rcases rr with _ | r
    · split_ifs with h1 h2 h4
      · simp only [Bool.false_eq_true, false_iff]
        rintro ⟨a, -, -, -⟩
        linarith
      · simp only [Bool.false_eq_true, false_iff]
        rintro ⟨-, b, -, -⟩
        linarith
      · simp only [Bool.false_eq_true, false_iff]
        rintro ⟨-, -, c, -⟩
        linarith
      · simp only [true_iff]
        exact ⟨by linarith, by linarith, by linarith, by intro r hr; cases hr⟩
    · split_ifs with h1 h2 h3
      · simp only [Bool.false_eq_true, false_iff]
        rintro ⟨a, -, -, -⟩
        linarith
      · simp only [Bool.false_eq_true, false_iff]
        rintro ⟨-, b, -, -⟩
        linarith
      · by_cases hr : r < 3/2
        · simp only [hr]
          simp
          exact fun _ _ _ => hr
        · simp only [hr]
          simp
          intro _ _ c
          linarith
      · by_cases hr : r < 3/2
        · simp only [hr]
          simp
          exact fun _ _ _ => hr
        · simp only [hr]
          simp
          exact ⟨by linarith, by linarith, by linarith, not_lt.mp hr⟩
  · unfold validate_trade
    rcases rr with _ | r
    · split_ifs with h1 h2 h4
      · have e1 : decide (0 < p) = false := decide_eq_false (not_lt.mpr h1)
        simp [firstFailingReason, sourceRuleOrder, List.find?, ruleHolds, ruleReason, e1]
      · have e1 : decide (0 < p) = true := decide_eq_true (not_le.mp h1)
        have e2 : decide (p ≤ 100) = false := decide_eq_false (not_le.mpr h2)
        simp [firstFailingReason, sourceRuleOrder, List.find?, ruleHolds, ruleReason, e1, e2]
      · have e1 : decide (0 < p) = true := decide_eq_true (not_le.mp h1)
        have e2 : decide (p ≤ 100) = true := decide_eq_true (not_lt.mp h2)
        have e4 : decide (10 ≤ p) = false := decide_eq_false (not_le.mpr h4)
        simp [firstFailingReason, sourceRuleOrder, List.find?, ruleHolds, ruleReason,
          e1, e2, e4]
      · have e1 : decide (0 < p) = true := decide_eq_true (not_le.mp h1)
        have e2 : decide (p ≤ 100) = true := decide_eq_true (not_lt.mp h2)
        have e4 : decide (10 ≤ p) = true := decide_eq_true (not_lt.mp h4)
        simp [firstFailingReason, sourceRuleOrder, List.find?, ruleHolds, ruleReason,
          e1, e2, e4]
    · split_ifs with h1 h2 h3
      · have e1 : decide (0 < p) = false := decide_eq_false (not_lt.mpr h1)
        simp [firstFailingReason, sourceRuleOrder, List.find?, ruleHolds, ruleReason, e1]
      · have e1 : decide (0 < p) = true := decide_eq_true (not_le.mp h1)
        have e2 : decide (p ≤ 100) = false := decide_eq_false (not_le.mpr h2)
        simp [firstFailingReason, sourceRuleOrder, List.find?, ruleHolds, ruleReason, e1, e2]
      · have e1 : decide (0 < p) = true := decide_eq_true (not_le.mp h1)
        have e2 : decide (p ≤ 100) = true := decide_eq_true (not_lt.mp h2)
        have e4 : decide (10 ≤ p) = false := decide_eq_false (not_le.mpr h3)
        by_cases hr : r < 3/2
        · have e3 : decide ((3/2 : ℚ) ≤ r) = false := decide_eq_false (not_le.mpr hr)
          simp [hr, firstFailingReason, sourceRuleOrder, List.find?, ruleHolds, ruleReason,
            e1, e2, e3]
        · have e3 : decide ((3/2 : ℚ) ≤ r) = true := decide_eq_true (not_lt.mp hr)
          simp [hr, firstFailingReason, sourceRuleOrder, List.find?, ruleHolds, ruleReason,
            e1, e2, e3, e4]
      · have e1 : decide (0 < p) = true := decide_eq_true (not_le.mp h1)
        have e2 : decide (p ≤ 100) = true := decide_eq_true (not_lt.mp h2)
        have e4 : decide (10 ≤ p) = true := decide_eq_true (not_lt.mp h3)
        by_cases hr : r < 3/2
        · have e3 : decide ((3/2 : ℚ) ≤ r) = false := decide_eq_false (not_le.mpr hr)
          simp [hr, firstFailingReason, sourceRuleOrder, List.find?, ruleHolds, ruleReason,
            e1, e2, e3]
        · have e3 : decide ((3/2 : ℚ) ≤ r) = true := decide_eq_true (not_lt.mp hr)
          simp [hr, firstFailingReason, sourceRuleOrder, List.find?, ruleHolds, ruleReason,
            e1, e2, e3, e4]

/-- C3 witness: the amended characterization applied at the inclusive
100-pip boundary with no risk/reward ratio (scenario C of the spec). -/
theorem C3_validation_amended_witness :
    (validate_trade 100 none).1 = true ∧
    (validate_trade 100 none).2 = firstFailingReason 100 none sourceRuleOrder :=
  ⟨((C3_validation_amended 100 none).1).mpr
      ⟨by norm_num, by norm_num, by norm_num, by intro r hr; cases hr⟩,
    (C3_validation_amended 100 none).2⟩

/-- C4: scenario A of the spec.  With account balance 10000, max risk 2%,
entry 1.0850, stop loss 1.0800, direction BUY and no take profit, the
rule-based calculation yields 50.0 pips of risk, 200.00 dollars of risk,
0.40 lots (= 2/5) position size and an approved trade; adding take profit
1.0950 yields 100.0 reward pips, risk/reward ratio 2.0, potential profit
400.00, still approved. -/
theorem C4_scenario_a :
    (calculate_risk_params 10000 (2/100) (some "EUR/USD") (1085/1000) (1080/1000) "BUY"
        none 1).risk_in_pips = 50 ∧
    (calculate_risk_params 10000 (2/100) (some "EUR/USD") (1085/1000) (1080/1000) "BUY"
        none 1).dollar_risk = 200 ∧
    (calculate_risk_params 10000 (2/100) (some "EUR/USD") (1085/1000) (1080/1000) "BUY"
        none 1).position_size = 2/5 ∧
    (calculate_risk_params 10000 (2/100) (some "EUR/USD") (1085/1000) (1080/1000) "BUY"
        none 1).trade_approved = true ∧
    (calculate_risk_params 10000 (2/100) (some "EUR/USD") (1085/1000) (1080/1000) "BUY"
        (some (1095/1000)) 1).reward =
      some { take_profit := 1095/1000, reward_in_pips := 100
             risk_reward_ratio := 2, potential_profit := 400 } ∧
    (calculate_risk_params 10000 (2/100) (some "EUR/USD") (1085/1000) (1080/1000) "BUY"
        (some (1095/1000)) 1).trade_approved = true := by
  have hpips : calculate_pips (1085/1000) (1080/1000) "BUY" false = 50 := by
    simp only [calculate_pips]
    norm_num
    rw [abs_of_nonneg (by norm_num)]
    norm_num
  have hrw : calculate_pips (1085/1000) (1095/1000) "BUY" true = 100 := by
    simp only [calculate_pips]
    norm_num
    rw [abs_of_nonneg (by norm_num)]
    norm_num
  have hpos : calculate_position_size 10000 (2/100) 50 = 2/5 := by
    simp only [calculate_position_size]
    rw [if_neg (by norm_num)]
    norm_num
  have hval : validate_trade 50 (none : Option ℚ) = (true, none) := by
    unfold validate_trade
    rw [if_neg (by norm_num : ¬(50:ℚ) ≤ 0), if_neg (by norm_num : ¬(100:ℚ) < 50)]
    show (if (50:ℚ) < 10 then _ else (true, none)) = (true, none)
    rw [if_neg (by norm_num)]
  have hval2 : validate_trade 50 (some 2) = (true, none) := by
    unfold validate_trade
    rw [if_neg (by norm_num : ¬(50:ℚ) ≤ 0), if_neg (by norm_num : ¬(100:ℚ) < 50)]
    show (if (2:ℚ) < 3/2 then _ else if (50:ℚ) < 10 then _ else (true, none)) = (true, none)
    rw [if_neg (by norm_num), if_neg (by norm_num)]
  have htp : (if (1095/1000 : ℚ) = 0 then (none : Option ℚ) else some (1095/1000)) =
      some (1095/1000) := by
    rw [if_neg (by norm_num)]
  have hif1 : (if (0:ℚ) < 50 then (100:ℚ)/50 else 0) = 2 := by
    rw [if_pos (by norm_num)]
    norm_num
  have hif2 : (if (0:ℚ) < 50 then (100:ℚ)/50 * (10000 * (2/100)) else 0) = 400 := by
    rw [if_pos (by norm_num)]
    norm_num
  refine ⟨?_, ?_, ?_, ?_, ?_, ?_⟩ <;>
    simp only [calculate_risk_params, htp, Option.map_some', Option.map_none', hpips, hrw,
      hpos, hif1, hif2, hval, hval2] <;>
    norm_num [pyRoundTo, pyRoundInt]

/-- C5: if during parallel analysis the technical provider raises with
message `msg` (a raised exception with a non-empty `str(e)`), while news and
fundamental return results, the merged update carries the news and
fundamental results unchanged, a technical result with `success=false` and
the non-empty error, and a step count equal to the max of the three branch
step counts - never their sum. -/
theorem C5_technical_isolation (s : WorkflowState) (rn rf : AgentResult) (msg : String)
    (h : msg ≠ "") :
    (parallel_analysis_node s (Except.ok rn) (Except.error msg) (Except.ok rf)).news_result =
      some (some rn) ∧
    (parallel_analysis_node s (Except.ok rn) (Except.error msg) (Except.ok rf)).fundamental_result =
      some (some rf) ∧
    (∃ tr : AgentResult,
      (parallel_analysis_node s (Except.ok rn) (Except.error msg) (Except.ok rf)).technical_result =
        some (some tr) ∧ tr.success = false ∧ tr.error = some msg ∧ tr.error ≠ some "") ∧
    (parallel_analysis_node s (Except.ok rn) (Except.error msg) (Except.ok rf)).step_count =
      some (max ((news_node s (Except.ok rn)).step_count.getD 0)
        (max ((technical_node s (Except.error msg)).step_count.getD 0)
          ((fundamental_node s (Except.ok rf)).step_count.getD 0))) ∧
    max ((news_node s (Except.ok rn)).step_count.getD 0)
      (max ((technical_node s (Except.error msg)).step_count.getD 0)
        ((fundamental_node s (Except.ok rf)).step_count.getD 0)) ≠
      (news_node s (Except.ok rn)).step_count.getD 0 +
        ((technical_node s (Except.error msg)).step_count.getD 0 +
          (fundamental_node s (Except.ok rf)).step_count.getD 0) := by
  refine ⟨rfl, rfl, ⟨_, rfl, rfl, rfl, by simpa using h⟩, rfl, ?_⟩
  show max (s.step_count + 1) (max (s.step_count + 1) (s.step_count + 1)) ≠
    (s.step_count + 1) + ((s.step_count + 1) + (s.step_count + 1))
  simp only [Nat.max_self]
  omega

/-- C5 witness: the isolation property at a concrete state, with concrete
news/fundamental payloads and a concrete technical exception. -/
theorem C5_technical_isolation_witness :
    (parallel_analysis_node stateAfterQP (Except.ok sampleNewsOk) (Except.error "boom")
      (Except.ok sampleFundOk)).news_result = some (some sampleNewsOk) :=
  (C5_technical_isolation stateAfterQP sampleNewsOk sampleFundOk "boom" (by decide)).1

/-- Equation for the errors channel after the parallel merge: it is exactly
the union of the three branch error dicts, or `None` when that union is
empty, regardless of what the channel held before. -/
theorem parallel_errors_eq (s : WorkflowState) (o1 o2 o3 : Except String AgentResult) :
    (applyUpdate s (parallel_analysis_node s o1 o2 o3)).errors =
      if (dictUpdate (dictUpdate (branchErrors (news_node s o1))
            (branchErrors (technical_node s o2)))
          (branchErrors (fundamental_node s o3))).isEmpty then none
      else some (dictUpdate (dictUpdate (branchErrors (news_node s o1))
            (branchErrors (technical_node s o2)))
          (branchErrors (fundamental_node s o3))) := rfl

/-- C6 counterexample: a state carrying `errors["query_parser"]` from the
query-parser stage loses that entry at the parallel-analysis merge when all
three branches succeed - the merge overwrites the errors channel with
`None`. -/
theorem C6_errors_overwritten_counterexample :
    dictGet (stateAfterQP.errors.getD []) "query_parser" = some "parse boom" ∧
    (applyUpdate stateAfterQP (parallel_analysis_node stateAfterQP (Except.ok sampleNewsOk)
      (Except.ok sampleTechOk) (Except.ok sampleFundOk))).errors = none :=
  ⟨rfl, rfl⟩

/-- C6 (amended): the parallel-analysis merge sets the errors channel to the
union of the three branch updates error dicts (or `None` when empty),
overwriting the previous value.  When all branches succeed the channel is
reset to `None`, deleting earlier entries such as `errors["query_parser"]`;
an earlier entry survives only because a failing branch copied the prior map
into its own errors dict. -/
theorem C6_errors_amended :
    (∀ (s : WorkflowState) (r1 r2 r3 : AgentResult),
      (applyUpdate s (parallel_analysis_node s
        (Except.ok r1) (Except.ok r2) (Except.ok r3))).errors = none) ∧
    (∀ (s : WorkflowState) (E : ErrMap) (r1 r3 : AgentResult) (msg k v : String),
      s.errors = some E → (dictKeys E).Nodup → dictGet E k = some v → k ≠ "technical" →
      dictGet (((applyUpdate s (parallel_analysis_node s (Except.ok r1) (Except.error msg)
          (Except.ok r3))).errors).getD []) k = some v ∧
      dictGet (((applyUpdate s (parallel_analysis_node s (Except.ok r1) (Except.error msg)
          (Except.ok r3))).errors).getD []) "technical" = some msg) := by
  constructor
  · intro s r1 r2 r3
    rfl
  · intro s E r1 r3 msg k v hE hnd hget hk
    have hM : (dictKeys (dictSet E "technical" msg)).Nodup :=
      nodup_dictKeys_dictSet _ _ _ hnd
    have hkk : dictGet (dictUpdate [] (dictSet E "technical" msg)) k = some v := by
      rw [dictGet_dictUpdate [] _ k hM, dictGet_dictSet_ne E "technical" msg k hk, hget]
      rfl
    have htech : dictGet (dictUpdate [] (dictSet E "technical" msg)) "technical" = some msg := by
      rw [dictGet_dictUpdate [] _ _ hM, dictGet_dictSet_self]
      rfl
    have hne : (dictUpdate [] (dictSet E "technical" msg)).isEmpty = false := by
      cases hlist : dictUpdate [] (dictSet E "technical" msg) with
      | nil =>
          rw [hlist] at htech
          simp [dictGet] at htech
      | cons a l => rfl
    rw [parallel_errors_eq]
    have hb2 : branchErrors (technical_node s (Except.error msg)) = dictSet E "technical" msg := by
      show dictSet (s.errors.getD []) "technical" msg = dictSet E "technical" msg
      rw [hE]
      rfl
    have hb1 : branchErrors (news_node s (Except.ok r1)) = ([] : ErrMap) := rfl
    have hb3 : branchErrors (fundamental_node s (Except.ok r3)) = ([] : ErrMap) := rfl
    rw [hb1, hb2, hb3]
    have hout : dictUpdate (dictUpdate ([] : ErrMap) (dictSet E "technical" msg)) [] =
        dictUpdate ([] : ErrMap) (dictSet E "technical" msg) := rfl
    rw [hout, hne]
    simp only [Bool.false_eq_true, if_false, Option.getD_some]
    exact ⟨hkk, htech⟩

/-- C6 witness: the amended survival property at a concrete state whose
errors dict holds a `query_parser` entry, with the technical branch raising
and the other two succeeding. -/
theorem C6_errors_amended_witness :
    dictGet (((applyUpdate stateAfterQP (parallel_analysis_node stateAfterQP
        (Except.ok sampleNewsOk) (Except.error "tech exploded")
        (Except.ok sampleFundOk))).errors).getD []) "query_parser" = some "parse boom" ∧
    dictGet (((applyUpdate stateAfterQP (parallel_analysis_node stateAfterQP
        (Except.ok sampleNewsOk) (Except.error "tech exploded")
        (Except.ok sampleFundOk))).errors).getD []) "technical" = some "tech exploded" :=
  C6_errors_amended.2 stateAfterQP [("query_parser", "parse boom")] sampleNewsOk sampleFundOk
    "tech exploded" "query_parser" "parse boom" rfl (by decide) rfl (by decide)

/-- Concrete state in which the technical stage has already failed, as seen
by the risk stage. -/
def c7State : WorkflowState :=
  { initial_state "EUR/USD short term" with
    technical_result := some (agent_error_envelope "TechnicalAgent" "search quota exhausted")
    step_count := 2 }

/-- C7 counterexample: the risk stage produces a `success=false` result
whose data dict is NOT empty - it carries the advisory payload
`{"trade_approved": false, "rejection_reason": "Technical analysis
unavailable"}` (nodes.py line 183), refuting the claim that `success=false`
implies an empty or absent data field for every result produced in a run. -/
theorem C7_risk_failure_data_counterexample :
    (risk_node 10000 (2/100) c7State).risk_result = some (some
      { success := false, agent := none
        data := some (AgentData.advisory false "Technical analysis unavailable")
        error := some "Technical analysis required for risk calculation", html := none }) ∧
    dataMissing (some (AgentData.advisory false "Technical analysis unavailable")) = false :=
  ⟨rfl, rfl⟩

/-- C7 (amended): for results produced by the agent-level failure envelopes
(news/technical/fundamental/risk agents), the branch-node failure envelopes
and the report-node failure envelope, `success=false` comes with an empty or
absent data field and a non-empty error (the raised message); the exception
is the risk stage, whose `success=false` results deliberately carry a
non-empty advisory data payload together with a non-empty error. -/
theorem C7_result_invariant_amended (name msg : String) (s : WorkflowState) (h : msg ≠ "") :
    ((agent_error_envelope name msg).success = false ∧
      dataMissing (agent_error_envelope name msg).data = true ∧
      (agent_error_envelope name msg).error = some msg ∧ some msg ≠ some "") ∧
    ((riskAgent_error_envelope msg).success = false ∧
      dataMissing (riskAgent_error_envelope msg).data = true ∧
      (riskAgent_error_envelope msg).error = some msg) ∧
    (∀ tr : AgentResult,
      (technical_node s (Except.error msg)).technical_result = some (some tr) →
      tr.success = false ∧ dataMissing tr.data = true ∧ tr.error = some msg) ∧
    (∀ rp : AgentResult,
      (report_node s (Except.error msg)).report_result = some (some rp) →
      rp.success = false ∧ dataMissing rp.data = true ∧ rp.error = some msg) ∧
    (∀ (ab mr : ℚ) (rk : AgentResult),
      (risk_node ab mr s).risk_result = some (some rk) → rk.success = false →
      dataMissing rk.data = false ∧ rk.error ≠ none) := by
  refine ⟨⟨rfl, rfl, rfl, by simpa using h⟩, ⟨rfl, rfl, rfl⟩, ?_, ?_, ?_⟩
  · intro tr htr
    simp only [technical_node, Option.some.injEq] at htr
    subst htr
    exact ⟨rfl, rfl, rfl⟩
  · intro rp hrp
    simp only [report_node, Option.some.injEq] at hrp
    subst hrp
    exact ⟨rfl, rfl, rfl⟩
  · intro ab mr rk hrk hsucc
    cases hta : s.technical_result with
    | none =>
        simp only [risk_node, hta, riskExceptUpdate, Option.some.injEq] at hrk
        subst hrk
        exact ⟨rfl, by simp⟩
    | some ta =>
        cases hs : ta.success with
        | false =>
            simp only [risk_node, hta, hs, Bool.false_eq_true, if_false,
              riskAdvisoryUpdate, Option.some.injEq] at hrk
            subst hrk
            exact ⟨rfl, by simp⟩
        | true =>
            cases hd : ta.data with
            | none =>
                simp only [risk_node, hta, hs, if_true, hd, riskExceptUpdate,
                  Option.some.injEq] at hrk
                subst hrk
                exact ⟨rfl, by simp⟩
            | some d =>
                cases hcp : truthyNum (techView d).1 with
                | none =>
                    simp only [risk_node, hta, hs, if_true, hd, hcp, riskAdvisoryUpdate,
                      Option.some.injEq] at hrk
                    subst hrk
                    exact ⟨rfl, by simp⟩
                | some entry =>
                    cases hsl : truthyNum (techView d).2.1 with
                    | none =>
                        simp only [risk_node, hta, hs, if_true, hd, hcp, hsl,
                          riskAdvisoryUpdate, Option.some.injEq] at hrk
                        subst hrk
                        exact ⟨rfl, by simp⟩
                    | some stop =>
                        simp only [risk_node, hta, hs, if_true, hd, hcp, hsl,
                          riskAgent_analyze, Option.some.injEq] at hrk
                        subst hrk
                        cases hsucc

/-- C7 witness: the amended invariant for a concrete agent failure
envelope. -/
theorem C7_result_invariant_amended_witness :
    (agent_error_envelope "NewsAgent" "boom").success = false ∧
    dataMissing (agent_error_envelope "NewsAgent" "boom").data = true ∧
    (agent_error_envelope "NewsAgent" "boom").error = some "boom" ∧
    some "boom" ≠ some "" :=
  (C7_result_invariant_amended "NewsAgent" "boom" stateAfterQP (by decide)).1

/-- C8: the conditional routing function after the risk stage returns
"continue" for every state whose risk slot has been written (whatever the
success and approval fields say), and in particular for every state just
produced by the risk stage from an arbitrary prior state - so the workflow
always proceeds to synthesis and the "end" branch out of risk is never
taken. -/
theorem C8_risk_routing :
    (∀ (s : WorkflowState) (r : AgentResult), s.risk_result = some r →
      should_continue_after_risk s = Except.ok "continue") ∧
    (∀ (ab mr : ℚ) (s : WorkflowState),
      should_continue_after_risk (applyUpdate s (risk_node ab mr s)) = Except.ok "continue") := by
  constructor
  · intro s r hr
    simp [should_continue_after_risk, hr, ite_self]
  · intro ab mr s
    cases hta : s.technical_result with
    | none =>
        simp [risk_node, hta, riskExceptUpdate, applyUpdate, should_continue_after_risk,
          ite_self]
    | some ta =>
        cases hs : ta.success with
        | false =>
            simp [risk_node, hta, hs, riskAdvisoryUpdate, applyUpdate,
              should_continue_after_risk, ite_self]
        | true =>
            cases hd : ta.data with
            | none =>
                simp [risk_node, hta, hs, hd, riskExceptUpdate, applyUpdate,
                  should_continue_after_risk, ite_self]
            | some d =>
                cases hcp : truthyNum (techView d).1 with
                | none =>
                    simp [risk_node, hta, hs, hd, hcp, riskAdvisoryUpdate, applyUpdate,
                      should_continue_after_risk, ite_self]
                | some entry =>
                    cases hsl : truthyNum (techView d).2.1 with
                    | none =>
                        simp [risk_node, hta, hs, hd, hcp, hsl, riskAdvisoryUpdate,
                          applyUpdate, should_continue_after_risk, ite_self]
                    | some stop =>
                        simp [risk_node, hta, hs, hd, hcp, hsl, riskAgent_analyze,
                          applyUpdate, should_continue_after_risk, ite_self]

/-- C8 witness: the router at the state the risk stage produces from a
concrete post-parsing state. -/
theorem C8_risk_routing_witness :
    should_continue_after_risk (applyUpdate stateAfterQP
      (risk_node 10000 (2/100) stateAfterQP)) = Except.ok "continue" :=
  C8_risk_routing.2 10000 (2/100) stateAfterQP

/-- C10: the pip-distance computation equals `|entry - exit| * 10000` for
every direction string and reward flag - both arguments are irrelevant to
the value - and is therefore strictly positive whenever the two prices
differ, even when the stop loss is on the wrong side of the entry for the
given direction. -/
theorem C10_pips_direction_independent (entry exit_price : ℚ) (direction : String)
    (reward : Bool) :
    calculate_pips entry exit_price direction reward = |entry - exit_price| * 10000 ∧
    (entry ≠ exit_price → 0 < calculate_pips entry exit_price direction reward) := by
  have habs : |exit_price - entry| = |entry - exit_price| := abs_sub_comm _ _
  have h1 : calculate_pips entry exit_price direction reward = |entry - exit_price| * 10000 := by
    unfold calculate_pips
    split_ifs <;> simp [habs]
  refine ⟨h1, fun hne => ?_⟩
  rw [h1]
  have hpos : 0 < |entry - exit_price| := abs_pos.mpr (sub_ne_zero.mpr hne)
  exact mul_pos hpos (by norm_num)

/-- C10 witness: a SELL direction with the reward flag set still computes
the plain absolute pip distance, and positivity holds at distinct prices. -/
theorem C10_pips_direction_independent_witness :
    calculate_pips (1085/1000) (1080/1000) "SELL" true =
      |(1085/1000 : ℚ) - 1080/1000| * 10000 ∧
    0 < calculate_pips (1085/1000) (1080/1000) "SELL" true :=
  ⟨(C10_pips_direction_independent (1085/1000) (1080/1000) "SELL" true).1,
   (C10_pips_direction_independent (1085/1000) (1080/1000) "SELL" true).2 (by norm_num)⟩
